import Mathlib

/-!
Verification of the email render view of the repository
(src/views/inbox/email.py, class EmailView).

The embedding models the pure selection-and-sanitization pipeline of
find_body and get_context_data.  External collaborators that the view
calls (Premailer().transform(), Cleaner().clean_html(), the lxml
parse / strip-img-src / serialize block) are fallible string
transformers modelled as oracle functions returning Option String,
where none stands for a raised exception.  Python exceptions that the
view itself can raise are modelled by an Except result.  Part body
payloads are modelled as Lean strings; the final
unicode(body, charset, errors="replace") decode therefore acts as the
identity on the payload - its totality captures the lossy
errors="replace" decoding of the source, which never raises on bad
bytes.  Message metadata passthroughs (date, inbox, eid) and the
read/seen flag updates are omitted: no claim mentions them.
-/

/-- A stored MIME part, as get_context_data consumes it: the nested-set
position (lft, rgt) and parent reference used by find_body, the raw body
payload (part.body.data), and the optional Content-Type and
Content-Disposition header values returned by part.header_set.get_many. -/
structure MimePart where
  parent : Option Nat
  lft : Nat
  rgt : Nat
  bodyData : String
  contentTypeHdr : Option String
  dispositionHdr : Option String
deriving DecidableEq

/-- A part after the classification loop of get_context_data (source lines
124-154): the part itself, the main content type (before the first
semicolon), and the resolved filename and charset parameters.  In the
source the charset is stored by mutating part.charset; here it travels in
this record. -/
structure Classified where
  part : MimePart
  ctMain : String
  filename : String
  charset : String
deriving DecidableEq

/-- The user profile flags read by the view:
userprofile.flags.prefer_html_email, .ask_images, .display_images. -/
structure UserFlags where
  prefer_html_email : Bool
  ask_images : Bool
  display_images : Bool
deriving DecidableEq

/-- The fallible external HTML processors invoked by get_context_data.
Each models one call site; none models that call raising the exception
the source catches there:
premailerTransform - Premailer(body).transform() (line 184);
cleanHtml - cleaner.clean_html(body) (line 190);
stripImgSrc - the lxml_html.fromstring / del img src / etree.tostring
block (lines 222-228), as one string transformer. -/
structure Oracles where
  premailerTransform : String → Option String
  cleanHtml : String → Option String
  stripImgSrc : String → Option String

/-- Python exceptions the view itself raises (not caught anywhere in it). -/
inductive PyError
  | keyError (key : String)
  | valueError
  | attributeError
deriving DecidableEq

/-- The user-facing messages the view can emit:
partialParse - messages.warning("Part of this message could not be
parsed - it may not display correctly") (line 187);
invalidHtml - messages.error("This email contained invalid HTML and
could not be displayed") (line 200). -/
inductive Warn
  | partialParse
  | invalidHtml
deriving DecidableEq

/-- The render-ready output of get_context_data: the email dict entries
plus the plain_message / attachments / ask_images context keys. -/
structure RenderedEmail where
  subject : String
  fromAddr : String
  body : String
  charset : String
  plain_message : Bool
  ask_images : Bool
  attachments : List Classified
  warnings : List Warn
deriving DecidableEq

instance {ε α : Type} [DecidableEq ε] [DecidableEq α] :
    DecidableEq (Except ε α) := fun a b =>
  match a, b with
  | .ok x, .ok y =>
    if h : x = y then .isTrue (by rw [h]) else .isFalse (by simp [h])
  | .error x, .error y =>
    if h : x = y then .isTrue (by rw [h]) else .isFalse (by simp [h])
  | .ok _, .error _ => .isFalse (by simp)
  | .error _, .ok _ => .isFalse (by simp)

/-- Python str.startswith, on the character lists of the strings. -/
def strStartsWith (s pre : String) : Bool := pre.data.isPrefixOf s.data

/-- Python dict lookup d.get(k) over an association list (dict keys are
unique, so first match suffices). -/
def dictGet? (d : List (String × String)) (k : String) : Option String :=
  (d.find? (fun pr => pr.1 == k)).map (fun pr => pr.2)

/-- Python str.split(sep, 1) at the first semicolon: returns the text
before the first semicolon and, when one exists, the text after it. -/
def splitFirstSemi : List Char → Option (List Char × List Char)
  | [] => none
  | c :: cs =>
    if c = ';' then some ([], cs)
    else
      match splitFirstSemi cs with
      | some (a, b) => some (c :: a, b)
      | none => none

/-- value.split(";", 1) of the source (line 126): the main content type
and, when a semicolon is present, the parameter remainder. -/
def pySplit1 (s : String) : String × Option String :=
  match splitFirstSemi s.data with
  | some (a, b) => (String.mk a, some (String.mk b))
  | none => (s, none)

/-- One key character of the HEADER_PARAMS pattern: [a-zA-Z0-9]. -/
def HEADER_PARAMS.isKeyChar (c : Char) : Bool := c.isAlpha || c.isDigit

/-- An optional surrounding quote of the HEADER_PARAMS pattern. -/
def HEADER_PARAMS.isQuote (c : Char) : Bool := c == '"' || c == '\''

/-- One value character of the HEADER_PARAMS pattern: anything except a
quote, a semicolon or an equals sign. -/
def HEADER_PARAMS.isValChar (c : Char) : Bool :=
  !(c == '"' || c == '\'' || c == ';' || c == '=')

/-- One anchored match attempt of the pattern
([a-zA-Z0-9]+)=["\x27]?([^"\x27;=]+)["\x27]?[;]? at the head of the
input: on success, the two captured groups and the rest of the input
after the match. -/
def HEADER_PARAMS.matchPair (cs : List Char) :
    Option ((String × String) × List Char) :=
  let keySplit := cs.span isKeyChar
  match keySplit.1, keySplit.2 with
  | [], _ => none
  | key, '=' :: afterEq =>
    let valStart :=
      match afterEq with
      | c :: cs2 => if isQuote c then cs2 else afterEq
      | [] => []
    let valSplit := valStart.span isValChar
    match valSplit.1 with
    | [] => none
    | val =>
      let afterQuote :=
        match valSplit.2 with
        | c :: cs2 => if isQuote c then cs2 else valSplit.2
        | [] => []
      let afterSemi :=
        match afterQuote with
        | ';' :: cs2 => cs2
        | other => other
      some ((String.mk key, String.mk val), afterSemi)
  | _, _ => none

/-- Left-to-right scan of re.findall: try a match at each position,
emitting the groups and resuming after the match, else advance one
character.  The fuel starts at the input length; every step consumes at
least one character of the remaining input, so the fuel never runs out
before the input does. -/
def HEADER_PARAMS.findallAux : Nat → List Char → List (String × String)
  | 0, _ => []
  | _ + 1, [] => []
  | fuel + 1, c :: cs =>
    match matchPair (c :: cs) with
    | some (pr, rest) => pr :: findallAux fuel rest
    | none => findallAux fuel cs

/-- HEADER_PARAMS.findall(s) of the source (line 36): all key=value
pairs matched by the tolerant parameter pattern. -/
def HEADER_PARAMS.findall (s : String) : List (String × String) :=
  findallAux s.data.length s.data

/-- Lookup in the parameter dict built by
params = dict(findall(ct_rest)); params.update(dict(findall(dispos))).
dict() keeps the last occurrence of a key and update() lets the
disposition pairs override, which is exactly a last-wins lookup over the
concatenated pair lists. -/
def lastParam (ps : List (String × String)) (k : String) : Option String :=
  ((ps.filter (fun pr => pr.1 == k)).getLast?).map (fun pr => pr.2)

/-- One iteration of the part loop of get_context_data (lines 124-154):
returns none for container parts (main type starting with multipart or
message, which the loop skips), otherwise the classified part with its
resolved filename and charset. -/
def classifyPart (p : MimePart) : Option Classified :=
  let ctRaw := p.contentTypeHdr.getD ""
  let ctSplit := pySplit1 ctRaw
  let ctMain := ctSplit.1
  if strStartsWith ctMain "multipart" || strStartsWith ctMain "message" then none
  else
    let ctParams :=
      match ctSplit.2 with
      | some rest => HEADER_PARAMS.findall rest
      | none => []
    let dispos := p.dispositionHdr.getD ""
    let ps := ctParams ++ HEADER_PARAMS.findall dispos
    let filename :=
      match lastParam ps "filename" with
      | some v => v
      | none => (lastParam ps "name").getD ""
    some { part := p, ctMain := ctMain, filename := filename,
           charset := (lastParam ps "charset").getD "utf-8" }

/-- The whole part loop: scans the parts in order, records the first
text/html part and the first text/plain part, and appends every
non-container part to the attachments list. -/
def scanParts (parts : List MimePart) :
    Option Classified × Option Classified × List Classified :=
  parts.foldl
    (fun st p =>
      match classifyPart p with
      | none => st
      | some c =>
        let html := st.1
        let plain := st.2.1
        let atts := st.2.2
        if html.isNone && c.ctMain == "text/html" then
          (some c, plain, atts ++ [c])
        else if plain.isNone && c.ctMain == "text/plain" then
          (html, some c, atts ++ [c])
        else
          (html, plain, atts ++ [c]))
    (none, none, [])

/-- EmailView.find_body (lines 85-105).  Returns some true when the body
should be plaintext, some false when it should be HTML, none when there
is no viable body.  For non-sibling parts the source comments intend the
lower lft to win; the else branch (taken when html.lft is greater than
or equal to plain.lft) returns true, selecting the plaintext part. -/
def find_body (html plain : Option MimePart) (prefer_html_email : Bool) :
    Option Bool :=
  match html, plain with
  | none, none => none
  | none, some _ => some true
  | some _, none => some false
  | some h, some p =>
    if h.parent = p.parent then some (!prefer_html_email)
    else if h.lft < p.lft then some false
    else some true

/-- The raw body set by lines 157-171: body text, charset and the
plain_message flag.  When find_body returned some with the matching part
absent the source would dereference None (an AttributeError); that
branch is unreachable from get_context_data but kept faithful here. -/
structure Selected where
  body : String
  charset : String
  plainMsg : Bool
deriving DecidableEq

/-- Lines 157-171: the None fallback (single attachment, or empty body)
and the plain/html raw body assignments. -/
def bodySelect (fb : Option Bool) (html plain : Option Classified)
    (atts : List Classified) : Except PyError Selected :=
  match fb with
  | none =>
    match atts with
    | [a] => .ok ⟨a.part.bodyData, a.charset, true⟩
    | _ => .ok ⟨"", "utf-8", true⟩
  | some true =>
    match plain with
    | some p => .ok ⟨p.part.bodyData, p.charset, true⟩
    | none => .error .attributeError
  | some false =>
    match html with
    | some h => .ok ⟨h.part.bodyData, h.charset, false⟩
    | none => .error .attributeError

/-- The Premailer step (lines 183-187): on success the transformed body,
on failure the body unchanged plus the non-fatal warning. -/
def premailerStep (oc : Oracles) (body : String) : String × List Warn :=
  match oc.premailerTransform body with
  | some b => (b, [])
  | none => (body, [.partialParse])

/-- The body, charset, plain_message flag and emitted messages after the
sanitizer block of lines 173-200. -/
structure SanState where
  body : String
  charset : String
  plainMsg : Bool
  warnings : List Warn
deriving DecidableEq

/-- Lines 173-200: skipped entirely for plain messages; otherwise the
Premailer step, then cleaner.clean_html, whose failure falls back to a
non-empty plain alternative (with its charset) or the empty body with
utf-8, forces plain mode and emits the fatal message. -/
def sanitize (oc : Oracles) (plain : Option Classified) (sel : Selected) :
    SanState :=
  if sel.plainMsg then ⟨sel.body, sel.charset, true, []⟩
  else
    let pm := premailerStep oc sel.body
    match oc.cleanHtml pm.1 with
    | some cleaned => ⟨cleaned, sel.charset, false, pm.2⟩
    | none =>
      match plain with
      | some p =>
        if p.part.bodyData.length > 0 then
          ⟨p.part.bodyData, p.charset, true, pm.2 ++ [.invalidHtml]⟩
        else ⟨"", "utf-8", true, pm.2 ++ [.invalidHtml]⟩
      | none => ⟨"", "utf-8", true, pm.2 ++ [.invalidHtml]⟩

/-- Python int(s) on a string: surrounding whitespace stripped, an
optional sign, then at least one decimal digit; anything else raises
ValueError (modelled by none). -/
def pyIsSpace (c : Char) : Bool :=
  c == ' ' || c == '\t' || c == '\n' || c == '\r' ||
  c == '\x0b' || c == '\x0c'

/-- Decimal digits to a natural number. -/
def digitsToNat (l : List Char) : Nat :=
  l.foldl (fun n c => n * 10 + (c.toNat - 48)) 0

/-- int() over a string, see pyIsSpace. -/
def pyInt (s : String) : Option Int :=
  let t := (s.data.dropWhile pyIsSpace).reverse.dropWhile pyIsSpace |>.reverse
  let signed : Bool × List Char :=
    match t with
    | '-' :: rest => (true, rest)
    | '+' :: rest => (false, rest)
    | _ => (false, t)
  if signed.2.isEmpty then none
  else if signed.2.all Char.isDigit then
    some (if signed.1 then -(digitsToNat signed.2 : Int) else (digitsToNat signed.2 : Int))
  else none

/-- Lines 204-217: the image display decision.  Plain messages bypass the
scrubber before the imgDisplay parameter is even parsed; otherwise the
one-shot imgDisplay=1 override, the ask_images preference, then the
display_images preference, in that order.  int() of an unparseable
imgDisplay value raises ValueError. -/
def imageDecision (flags : UserFlags) (imgq : Option String)
    (plainMsg : Bool) : Except PyError (Bool × Bool) :=
  if plainMsg then .ok (true, false)
  else
    match imgq with
    | none =>
      if flags.ask_images then .ok (false, true)
      else .ok (flags.display_images, false)
    | some s =>
      match pyInt s with
      | none => .error .valueError
      | some v =>
        if v = 1 then .ok (true, false)
        else if flags.ask_images then .ok (false, true)
        else .ok (flags.display_images, false)

/-- Lines 219-235: when images are not displayed, strip img src
attributes; a parse failure falls back to a non-empty plain alternative
(with its charset) or the empty body with utf-8.  Unlike the sanitizer
fallback, this except block neither flips plain_message nor emits any
message. -/
def imageFilter (oc : Oracles) (plain : Option Classified)
    (imgDisplay : Bool) (body charset : String) : String × String :=
  if imgDisplay then (body, charset)
  else
    match oc.stripImgSrc body with
    | some b => (b, charset)
    | none =>
      match plain with
      | some p =>
        if p.part.bodyData.length > 0 then (p.part.bodyData, p.charset)
        else ("", "utf-8")
      | none => ("", "utf-8")

/-- Line 238: unicode(body, charset, errors="replace").  Part payloads
are modelled as Lean strings, so the lossy decode is the identity on the
payload; its totality captures errors="replace" never raising on bad
bytes. -/
def pyUnicodeReplace (charset body : String) : String := body

/-- EmailView.get_context_data (lines 107-248) over the inputs the view
reads: the top-level header dict, the part list, the user profile flags
and the optional imgDisplay GET parameter.  headers["From"] raises
KeyError when absent; headers.get("Subject", ...) degrades to the
default.  The result carries every email dict / context entry the
claims mention. -/
def get_context_data (oc : Oracles) (headers : List (String × String))
    (parts : List MimePart) (flags : UserFlags) (imgq : Option String) :
    Except PyError RenderedEmail :=
  match dictGet? headers "From" with
  | none => .error (.keyError "From")
  | some fromAddr =>
    let scanned := scanParts parts
    let html := scanned.1
    let plain := scanned.2.1
    let attachments := scanned.2.2
    let fb := find_body (Option.map Classified.part html)
      (Option.map Classified.part plain) flags.prefer_html_email
    match bodySelect fb html plain attachments with
    | .error e => .error e
    | .ok sel =>
      let st := sanitize oc plain sel
      match imageDecision flags imgq st.plainMsg with
      | .error e => .error e
      | .ok dec =>
        let fin := imageFilter oc plain dec.1 st.body st.charset
        .ok { subject := (dictGet? headers "Subject").getD "(No subject)",
              fromAddr := fromAddr,
              body := pyUnicodeReplace fin.2 fin.1,
              charset := fin.2,
              plain_message := st.plainMsg,
              ask_images := dec.2,
              attachments := attachments,
              warnings := st.warnings }

/-! Shared concrete inputs for witnesses and counterexamples. -/

/-- Oracles in which every external HTML processor succeeds and returns
its input unchanged. -/
def ocId : Oracles := ⟨fun s => some s, fun s => some s, fun s => some s⟩

/-- Oracles in which cleaner.clean_html raises and the rest succeed. -/
def ocCleanFail : Oracles := ⟨fun s => some s, fun _ => none, fun s => some s⟩

/-- Oracles in which the image-stripping lxml block raises and the rest
succeed. -/
def ocStripFail : Oracles := ⟨fun s => some s, fun s => some s, fun _ => none⟩

/-- All profile flags cleared. -/
def flagsDefault : UserFlags := ⟨false, false, false⟩

/-- An HTML part that is a sibling of plainPartA (same parent). -/
def htmlPartA : MimePart := ⟨some 1, 2, 3, "<p>H</p>", some "text/html", none⟩

/-- A plain-text part with a declared charset, sibling of htmlPartA. -/
def plainPartA : MimePart :=
  ⟨some 1, 4, 5, "PLAIN", some "text/plain; charset=latin-1", none⟩

/-- htmlPartA as the classification loop emits it. -/
def htmlClassA : Classified := ⟨htmlPartA, "text/html", "", "utf-8"⟩

/-- plainPartA as the classification loop emits it. -/
def plainClassA : Classified := ⟨plainPartA, "text/plain", "", "latin-1"⟩

/-- An HTML part with the same lft as plainPartEq but another parent. -/
def htmlPartEq : MimePart := ⟨some 1, 7, 8, "<i>x</i>", some "text/html", none⟩

/-- A plain part with the same lft as htmlPartEq but another parent. -/
def plainPartEq : MimePart := ⟨some 2, 7, 9, "p", some "text/plain", none⟩

/-- A non-sibling HTML part at lft 5 (the spec's positional example). -/
def posHtml : MimePart := ⟨some 1, 5, 6, "<b>h</b>", some "text/html", none⟩

/-- A non-sibling plain part at lft 2 (the spec's positional example). -/
def posPlain : MimePart := ⟨some 2, 2, 9, "p", some "text/plain", none⟩

/-- A lone non-container part that is neither text/html nor text/plain. -/
def appPart : MimePart :=
  ⟨none, 1, 2, "RAWBYTES", some "application/octet-stream; charset=koi8-r", none⟩

/-- appPart as the classification loop emits it. -/
def appClass : Classified := ⟨appPart, "application/octet-stream", "", "koi8-r"⟩

/-- A message whose only part is HTML. -/
def htmlOnly : MimePart := ⟨none, 1, 2, "<x>", some "text/html", none⟩

/-- A throwaway classified part for instantiating universally quantified
statements. -/
def dummyClass : Classified := ⟨⟨none, 0, 0, "", none, none⟩, "", "", "utf-8"⟩

/-- A throwaway selection for instantiating universally quantified
statements. -/
def dummySel : Selected := ⟨"", "utf-8", true⟩

/-! Claim C3. -/

/-- C3 counterexample: with an HTML part and a plain part that are not
siblings and have equal lft values, find_body returns some true - the
plaintext part is selected - for either preference, refuting the claim
that the HTML part wins the tie. -/
theorem claim_C3_counterexample :
    find_body (some htmlPartEq) (some plainPartEq) true = some true ∧
    find_body (some htmlPartEq) (some plainPartEq) false = some true := by
  decide

/-- C3 (amended): when both parts exist, are not siblings, and have equal
left values, the selector falls into the else branch and returns some
true, selecting the PLAIN part (plain wins the tie, not HTML). -/
theorem claim_C3 (h p : MimePart) (pref : Bool)
    (hpar : h.parent ≠ p.parent) (hlft : h.lft = p.lft) :
    find_body (some h) (some p) pref = some true := by
  simp only [find_body]
  rw [if_neg hpar, if_neg (by rw [hlft]; exact lt_irrefl _)]

/-- C3 witness: the amended tie-break at a concrete non-sibling pair with
equal left values. -/
theorem claim_C3_witness :
    htmlPartEq.parent ≠ plainPartEq.parent ∧
    htmlPartEq.lft = plainPartEq.lft ∧
    find_body (some htmlPartEq) (some plainPartEq) false = some true :=
  ⟨by decide, by decide, claim_C3 htmlPartEq plainPartEq false (by decide) (by decide)⟩

/-! Claim C6. -/

/-- C6: for sibling HTML and plain parts the selector honours only the
prefer_html_email preference - Html (some false) when it is set, Plain
(some true) otherwise - and the outcome is unchanged by swapping the two
parts' left/right values: the sibling rule never consults position. -/
theorem claim_C6 (h p : MimePart) (pref : Bool) (hpar : h.parent = p.parent) :
    find_body (some h) (some p) pref = some (!pref) ∧
    find_body (some { h with lft := p.lft, rgt := p.rgt })
      (some { p with lft := h.lft, rgt := h.rgt }) pref =
      find_body (some h) (some p) pref := by
  constructor
  · simp [find_body, hpar]
  · simp [find_body, hpar]

/-- C6 witness: concrete siblings, both preference values. -/
theorem claim_C6_witness :
    find_body (some htmlPartA) (some plainPartA) true = some false ∧
    find_body (some htmlPartA) (some plainPartA) false = some true :=
  ⟨(claim_C6 htmlPartA plainPartA true (by decide)).1,
   (claim_C6 htmlPartA plainPartA false (by decide)).1⟩

/-! Claim C7. -/

/-- C7: for non-sibling HTML and plain parts the selector picks the part
with the strictly smaller left value - Html (some false) when the HTML
part's lft is smaller, Plain (some true) when the plain part's lft is
smaller - for either value of the preference. -/
theorem claim_C7 (h p : MimePart) (pref : Bool) (hpar : h.parent ≠ p.parent) :
    (h.lft < p.lft → find_body (some h) (some p) pref = some false) ∧
    (p.lft < h.lft → find_body (some h) (some p) pref = some true) := by
  constructor
  · intro hlt
    simp [find_body, hpar, hlt]
  · intro hlt
    have hnot : ¬ h.lft < p.lft := by omega
    simp [find_body, hpar, hnot]

/-- C7 witness: the spec's example - H at lft 5, P at lft 2, plain wins
under prefer_html_email = true. -/
theorem claim_C7_witness :
    posPlain.lft < posHtml.lft ∧
    find_body (some posHtml) (some posPlain) true = some true :=
  ⟨by decide, (claim_C7 posHtml posPlain true (by decide)).2 (by decide)⟩

/-! Claim C5. -/

/-- C5: the image-display decision follows exactly the priority order of
lines 205-217: plain-text mode shows images without asking; else an
imgDisplay parameter equal to 1 shows images without asking; else the
ask_images preference suppresses images and raises the ask flag; else
the display_images preference decides, without asking.  The pair is
(images shown, ask flag). -/
theorem claim_C5 (flags : UserFlags) (imgq : Option String) :
    (imageDecision flags imgq true = .ok (true, false)) ∧
    (∀ s, imgq = some s → pyInt s = some 1 →
      imageDecision flags imgq false = .ok (true, false)) ∧
    ((imgq = none ∨ ∃ s v, imgq = some s ∧ pyInt s = some v ∧ v ≠ 1) →
      flags.ask_images = true →
      imageDecision flags imgq false = .ok (false, true)) ∧
    ((imgq = none ∨ ∃ s v, imgq = some s ∧ pyInt s = some v ∧ v ≠ 1) →
      flags.ask_images = false →
      imageDecision flags imgq false = .ok (flags.display_images, false)) := by
  refine ⟨by simp [imageDecision], ?_, ?_, ?_⟩
  · intro s hq hone
    subst hq
    simp [imageDecision, hone]
  · intro hno hask
    rcases hno with hq | ⟨s, v, hq, hv, hne⟩
    · subst hq
      simp [imageDecision, hask]
    · subst hq
      simp [imageDecision, hv, hne, hask]
  · intro hno hask
    rcases hno with hq | ⟨s, v, hq, hv, hne⟩
    · subst hq
      simp [imageDecision, hask]
    · subst hq
      simp [imageDecision, hv, hne, hask]

/-- C5 witness: with ask_images set and an imgDisplay value that parses
to 2 (override absent), images are suppressed and the ask flag raised. -/
theorem claim_C5_witness :
    imageDecision ⟨false, true, false⟩ (some "2") false = .ok (false, true) :=
  (claim_C5 ⟨false, true, false⟩ (some "2")).2.2.1
    (Or.inr ⟨"2", 2, rfl, by decide, by decide⟩) rfl

/-! Claim C10. -/

/-- C10: every fallback that sets the body to the empty string - the
no-viable-body fallback with an attachment count other than one, the
cleaning-failure fallback without a non-empty plain alternative, and the
image-filter-failure fallback without one - pairs it with the charset
utf-8, while the single-attachment fallback uses that part's resolved
charset; so the returned charset is always a defined value. -/
theorem claim_C10 (oc : Oracles) (html plain : Option Classified)
    (atts : List Classified) (a : Classified) (sel : Selected)
    (body charset : String) :
    (atts.length ≠ 1 → bodySelect none html plain atts = .ok ⟨"", "utf-8", true⟩) ∧
    (bodySelect none html plain [a] = .ok ⟨a.part.bodyData, a.charset, true⟩) ∧
    (sel.plainMsg = false → oc.cleanHtml (premailerStep oc sel.body).1 = none →
      (plain = none ∨ ∃ p, plain = some p ∧ p.part.bodyData.length = 0) →
      sanitize oc plain sel =
        ⟨"", "utf-8", true, (premailerStep oc sel.body).2 ++ [.invalidHtml]⟩) ∧
    (oc.stripImgSrc body = none →
      (plain = none ∨ ∃ p, plain = some p ∧ p.part.bodyData.length = 0) →
      imageFilter oc plain false body charset = ("", "utf-8")) := by
  refine ⟨?_, by simp [bodySelect], ?_, ?_⟩
  · intro hlen
    match atts with
    | [] => simp [bodySelect]
    | [x] => exact absurd rfl hlen
    | x :: y :: t => simp [bodySelect]
  · intro hpm hclean hplain
    rcases hplain with hq | ⟨p, hq, hlen⟩
    · subst hq
      simp [sanitize, hpm, hclean]
    · subst hq
      simp [sanitize, hpm, hclean, hlen]
  · intro hstrip hplain
    rcases hplain with hq | ⟨p, hq, hlen⟩
    · subst hq
      simp [imageFilter, hstrip]
    · subst hq
      simp [imageFilter, hstrip, hlen]

/-- C10 witness: the empty-attachments no-viable-body fallback yields the
empty body with charset utf-8 and plain mode. -/
theorem claim_C10_witness :
    bodySelect none none none [] = .ok ⟨"", "utf-8", true⟩ :=
  (claim_C10 ocId none none [] dummyClass dummySel "" "").1 (by decide)

/-! Helper lemmas about get_context_data. -/

/-- Any successful render carries the subject computed by
headers.get("Subject", "(No subject)") before the body pipeline runs. -/
theorem get_context_data_ok_subject (oc : Oracles)
    (headers : List (String × String)) (parts : List MimePart)
    (flags : UserFlags) (imgq : Option String) (r : RenderedEmail)
    (hok : get_context_data oc headers parts flags imgq = .ok r) :
    r.subject = (dictGet? headers "Subject").getD "(No subject)" := by
  unfold get_context_data at hok
  split at hok
  · exact Except.noConfusion hok
  · dsimp only at hok
    split at hok
    · exact Except.noConfusion hok
    · split at hok
      · exact Except.noConfusion hok
      · injection hok with h
        rw [← h]

/-! Claim C9. -/

/-- The render of a message with only a From header, no parts and
default flags: empty plain body and the default subject. -/
def renderFromOnly : RenderedEmail :=
  ⟨"(No subject)", "x@y", "", "utf-8", true, false, [], []⟩

/-- C9: the two top-level headers are treated asymmetrically - a missing
From entry makes the render raise KeyError and abort, while a missing
Subject entry degrades to the default subject "(No subject)" in any
successful render. -/
theorem claim_C9 (oc : Oracles) (headers : List (String × String))
    (parts : List MimePart) (flags : UserFlags) (imgq : Option String) :
    (dictGet? headers "From" = none →
      get_context_data oc headers parts flags imgq = .error (.keyError "From")) ∧
    (∀ r, dictGet? headers "Subject" = none →
      get_context_data oc headers parts flags imgq = .ok r →
      r.subject = "(No subject)") := by
  constructor
  · intro hF
    unfold get_context_data
    rw [hF]
  · intro r hS hok
    rw [get_context_data_ok_subject oc headers parts flags imgq r hok, hS]
    rfl

/-- C9 witness: a concrete header set without From aborts with KeyError,
and a concrete successful render without Subject shows the default. -/
theorem claim_C9_witness :
    get_context_data ocId [("Subject", "s")] [] flagsDefault none =
      .error (.keyError "From") ∧
    renderFromOnly.subject = "(No subject)" :=
  ⟨(claim_C9 ocId [("Subject", "s")] [] flagsDefault none).1 rfl,
   (claim_C9 ocId [("From", "x@y")] [] flagsDefault none).2 renderFromOnly rfl
     (by decide)⟩

/-- When the raw-body selection yields a plain-mode selection, the whole
pipeline reduces to it: the sanitizer and the image filter are bypassed,
images are shown without asking, and no message is emitted. -/
theorem get_context_data_plain_path (oc : Oracles)
    (headers : List (String × String)) (parts : List MimePart)
    (flags : UserFlags) (imgq : Option String) (f : String)
    (html plain : Option Classified) (atts : List Classified) (sel : Selected)
    (hFrom : dictGet? headers "From" = some f)
    (hScan : scanParts parts = (html, plain, atts))
    (hSel : bodySelect
      (find_body (Option.map Classified.part html)
        (Option.map Classified.part plain) flags.prefer_html_email)
      html plain atts = .ok sel)
    (hpm : sel.plainMsg = true) :
    get_context_data oc headers parts flags imgq =
      .ok ⟨(dictGet? headers "Subject").getD "(No subject)", f,
           sel.body, sel.charset, true, false, atts, []⟩ := by
  unfold get_context_data
  rw [hFrom]
  dsimp only
  rw [hScan]
  dsimp only
  rw [hSel]
  simp [sanitize, hpm, imageDecision, imageFilter, pyUnicodeReplace]

/-- When the selector chooses HTML, the render is the HTML raw body fed
through the sanitizer, the image decision and the image filter. -/
theorem get_context_data_html_path (oc : Oracles)
    (headers : List (String × String)) (parts : List MimePart)
    (flags : UserFlags) (imgq : Option String) (f : String)
    (h : Classified) (plain : Option Classified) (atts : List Classified)
    (hFrom : dictGet? headers "From" = some f)
    (hScan : scanParts parts = (some h, plain, atts))
    (hFb : find_body (some h.part) (Option.map Classified.part plain)
      flags.prefer_html_email = some false) :
    get_context_data oc headers parts flags imgq =
      (let st := sanitize oc plain ⟨h.part.bodyData, h.charset, false⟩
       match imageDecision flags imgq st.plainMsg with
       | .error e => .error e
       | .ok dec =>
         let fin := imageFilter oc plain dec.1 st.body st.charset
         .ok ⟨(dictGet? headers "Subject").getD "(No subject)", f,
              pyUnicodeReplace fin.2 fin.1, fin.2, st.plainMsg, dec.2,
              atts, st.warnings⟩) := by
  unfold get_context_data
  rw [hFrom]
  dsimp only
  rw [hScan]
  dsimp only
  rw [Option.map_some', hFb]
  dsimp only [bodySelect]

/-- The Premailer step emits no fatal message of its own. -/
theorem premailerStep_no_fatal (oc : Oracles) (b : String) :
    List.count Warn.invalidHtml (premailerStep oc b).2 = 0 := by
  cases hx : oc.premailerTransform b <;> simp [premailerStep, hx]

/-- The cleaner-failure message appended to the Premailer step's
messages appears exactly once. -/
theorem premailerStep_one_fatal (oc : Oracles) (b : String) :
    List.count Warn.invalidHtml ((premailerStep oc b).2 ++ [Warn.invalidHtml]) = 1 := by
  cases hx : oc.premailerTransform b <;> simp [premailerStep, hx]

/-! Claim C8. -/

/-- C8: when find_body returns None, the fallback of lines 157-165: with
exactly one non-container part that part's body bytes become the output
body verbatim with its resolved charset, otherwise the body is empty
with charset utf-8; either way the message is marked plain. -/
theorem claim_C8 (oc : Oracles) (headers : List (String × String))
    (parts : List MimePart) (flags : UserFlags) (imgq : Option String)
    (f : String) (html plain : Option Classified) (atts : List Classified)
    (hFrom : dictGet? headers "From" = some f)
    (hScan : scanParts parts = (html, plain, atts))
    (hFb : find_body (Option.map Classified.part html)
      (Option.map Classified.part plain) flags.prefer_html_email = none) :
    (∀ a, atts = [a] → get_context_data oc headers parts flags imgq =
      .ok ⟨(dictGet? headers "Subject").getD "(No subject)", f,
           a.part.bodyData, a.charset, true, false, atts, []⟩) ∧
    (atts.length ≠ 1 → get_context_data oc headers parts flags imgq =
      .ok ⟨(dictGet? headers "Subject").getD "(No subject)", f,
           "", "utf-8", true, false, atts, []⟩) := by
  constructor
  · rintro a rfl
    exact get_context_data_plain_path oc headers parts flags imgq f html plain
      [a] ⟨a.part.bodyData, a.charset, true⟩ hFrom hScan
      (by rw [hFb]; simp [bodySelect]) rfl
  · intro hlen
    rcases atts with _ | ⟨x, _ | ⟨y, t⟩⟩
    · exact get_context_data_plain_path oc headers parts flags imgq f html plain
        [] ⟨"", "utf-8", true⟩ hFrom hScan (by rw [hFb]; simp [bodySelect]) rfl
    · exact absurd rfl hlen
    · exact get_context_data_plain_path oc headers parts flags imgq f html plain
        (x :: y :: t) ⟨"", "utf-8", true⟩ hFrom hScan
        (by rw [hFb]; simp [bodySelect]) rfl

/-- C8 witness: a message whose only part is an application/octet-stream
attachment renders that part's bytes verbatim with its charset, marked
plain. -/
theorem claim_C8_witness :
    get_context_data ocId [("From", "a@b")] [appPart] flagsDefault none =
      .ok ⟨"(No subject)", "a@b", "RAWBYTES", "koi8-r", true, false,
           [appClass], []⟩ :=
  (claim_C8 ocId [("From", "a@b")] [appPart] flagsDefault none "a@b"
    none none [appClass] rfl (by decide) rfl).1 appClass rfl

/-! Claim C4. -/

/-- C4: if the structural cleaning pass raises while cleaning a selected
HTML body then the output falls back to a non-empty plain alternative's
body and charset when one exists and to the empty body with utf-8
otherwise, the message is switched to plain-text mode, and the fatal
invalid-HTML message is emitted exactly once. -/
theorem claim_C4 (oc : Oracles) (headers : List (String × String))
    (parts : List MimePart) (flags : UserFlags) (imgq : Option String)
    (f : String) (h : Classified) (plain : Option Classified)
    (atts : List Classified)
    (hFrom : dictGet? headers "From" = some f)
    (hScan : scanParts parts = (some h, plain, atts))
    (hFb : find_body (some h.part) (Option.map Classified.part plain)
      flags.prefer_html_email = some false)
    (hClean : oc.cleanHtml (premailerStep oc h.part.bodyData).1 = none) :
    ∃ r, get_context_data oc headers parts flags imgq = .ok r ∧
      r.plain_message = true ∧
      List.count Warn.invalidHtml r.warnings = 1 ∧
      (∀ p, plain = some p → 0 < p.part.bodyData.length →
        r.body = p.part.bodyData ∧ r.charset = p.charset) ∧
      ((plain = none ∨ ∃ p, plain = some p ∧ p.part.bodyData.length = 0) →
        r.body = "" ∧ r.charset = "utf-8") := by
  have hg := get_context_data_html_path oc headers parts flags imgq f h plain
    atts hFrom hScan hFb
  cases plain with
  | none =>
    have hok : get_context_data oc headers parts flags imgq =
        .ok ⟨(dictGet? headers "Subject").getD "(No subject)", f, "", "utf-8",
             true, false, atts,
             (premailerStep oc h.part.bodyData).2 ++ [Warn.invalidHtml]⟩ := by
      rw [hg]
      have hst : sanitize oc none ⟨h.part.bodyData, h.charset, false⟩ =
          ⟨"", "utf-8", true,
           (premailerStep oc h.part.bodyData).2 ++ [Warn.invalidHtml]⟩ := by
        simp [sanitize, hClean]
      simp only [hst]
      simp [imageDecision, imageFilter, pyUnicodeReplace]
    exact ⟨_, hok, rfl, premailerStep_one_fatal oc h.part.bodyData,
      fun p hp _ => Option.noConfusion hp, fun _ => ⟨rfl, rfl⟩⟩
  | some p =>
    by_cases hl : 0 < p.part.bodyData.length
    · have hok : get_context_data oc headers parts flags imgq =
          .ok ⟨(dictGet? headers "Subject").getD "(No subject)", f,
               p.part.bodyData, p.charset, true, false, atts,
               (premailerStep oc h.part.bodyData).2 ++ [Warn.invalidHtml]⟩ := by
        rw [hg]
        have hst : sanitize oc (some p) ⟨h.part.bodyData, h.charset, false⟩ =
            ⟨p.part.bodyData, p.charset, true,
             (premailerStep oc h.part.bodyData).2 ++ [Warn.invalidHtml]⟩ := by
          simp [sanitize, hClean, hl]
        simp only [hst]
        simp [imageDecision, imageFilter, pyUnicodeReplace]
      refine ⟨_, hok, rfl, premailerStep_one_fatal oc h.part.bodyData, ?_, ?_⟩
      · rintro p' hp' _
        injection hp' with hp'
        subst hp'
        exact ⟨rfl, rfl⟩
      · rintro (hn | ⟨p', hp', hl0⟩)
        · exact Option.noConfusion hn
        · injection hp' with hp'
          subst hp'
          omega
    · have hl0 : p.part.bodyData.length = 0 := by omega
      have hok : get_context_data oc headers parts flags imgq =
          .ok ⟨(dictGet? headers "Subject").getD "(No subject)", f, "", "utf-8",
               true, false, atts,
               (premailerStep oc h.part.bodyData).2 ++ [Warn.invalidHtml]⟩ := by
        rw [hg]
        have hst : sanitize oc (some p) ⟨h.part.bodyData, h.charset, false⟩ =
            ⟨"", "utf-8", true,
             (premailerStep oc h.part.bodyData).2 ++ [Warn.invalidHtml]⟩ := by
          simp [sanitize, hClean, hl0]
        simp only [hst]
        simp [imageDecision, imageFilter, pyUnicodeReplace]
      refine ⟨_, hok, rfl, premailerStep_one_fatal oc h.part.bodyData, ?_, ?_⟩
      · rintro p' hp' hlp
        injection hp' with hp'
        subst hp'
        omega
      · intro _
        exact ⟨rfl, rfl⟩

/-- C4 witness: cleaner failure over a sibling pair with a non-empty
plain alternative - the render recovers with the plain body and charset,
flips to plain mode and reports the fatal message once. -/
theorem claim_C4_witness :
    ∃ r, get_context_data ocCleanFail [("From", "a@b")] [htmlPartA, plainPartA]
        ⟨true, false, false⟩ none = .ok r ∧
      r.plain_message = true ∧
      List.count Warn.invalidHtml r.warnings = 1 ∧
      (∀ p, some plainClassA = some p → 0 < p.part.bodyData.length →
        r.body = p.part.bodyData ∧ r.charset = p.charset) ∧
      ((some plainClassA = none ∨
        ∃ p, some plainClassA = some p ∧ p.part.bodyData.length = 0) →
        r.body = "" ∧ r.charset = "utf-8") :=
  claim_C4 ocCleanFail [("From", "a@b")] [htmlPartA, plainPartA]
    ⟨true, false, false⟩ none "a@b" htmlClassA (some plainClassA)
    [htmlClassA, plainClassA] rfl (by decide) (by decide) rfl

/-! Claim C2. -/

/-- C2 counterexample: a render in which the image-stripping step fails
over a message with a non-empty plain alternative.  The body does fall
back to the plain part's body and charset, but plain_message stays false
and no message at all is emitted - refuting the claim that this failure
recovers exactly like a structural-cleaning failure, which would force
plain-text mode and report a fatal warning. -/
theorem claim_C2_counterexample :
    get_context_data ocStripFail [("From", "a@b")] [htmlPartA, plainPartA]
      ⟨true, true, false⟩ none =
    .ok ⟨"(No subject)", "a@b", "PLAIN", "latin-1", false, true,
         [htmlClassA, plainClassA], []⟩ := by
  decide

/-- C2 (amended): if the image-stripping step fails to parse the HTML
body, the body and charset fall back exactly as for a
structural-cleaning failure - the plain alternative's body with its
charset when a non-empty plain part exists, otherwise the empty string
with utf-8 - but, unlike that failure, the message is NOT forced into
plain-text mode and NO fatal warning is reported. -/
theorem claim_C2 (oc : Oracles) (headers : List (String × String))
    (parts : List MimePart) (flags : UserFlags) (imgq : Option String)
    (f cleaned : String) (h : Classified) (plain : Option Classified)
    (atts : List Classified) (ask : Bool)
    (hFrom : dictGet? headers "From" = some f)
    (hScan : scanParts parts = (some h, plain, atts))
    (hFb : find_body (some h.part) (Option.map Classified.part plain)
      flags.prefer_html_email = some false)
    (hClean : oc.cleanHtml (premailerStep oc h.part.bodyData).1 = some cleaned)
    (hDec : imageDecision flags imgq false = .ok (false, ask))
    (hStrip : oc.stripImgSrc cleaned = none) :
    ∃ r, get_context_data oc headers parts flags imgq = .ok r ∧
      r.plain_message = false ∧
      List.count Warn.invalidHtml r.warnings = 0 ∧
      (∀ p, plain = some p → 0 < p.part.bodyData.length →
        r.body = p.part.bodyData ∧ r.charset = p.charset) ∧
      ((plain = none ∨ ∃ p, plain = some p ∧ p.part.bodyData.length = 0) →
        r.body = "" ∧ r.charset = "utf-8") := by
  have hg := get_context_data_html_path oc headers parts flags imgq f h plain
    atts hFrom hScan hFb
  have hst : sanitize oc plain ⟨h.part.bodyData, h.charset, false⟩ =
      ⟨cleaned, h.charset, false, (premailerStep oc h.part.bodyData).2⟩ := by
    simp [sanitize, hClean]
  cases plain with
  | none =>
    have hok : get_context_data oc headers parts flags imgq =
        .ok ⟨(dictGet? headers "Subject").getD "(No subject)", f, "", "utf-8",
             false, ask, atts, (premailerStep oc h.part.bodyData).2⟩ := by
      rw [hg]
      simp only [hst]
      rw [hDec]
      simp [imageFilter, hStrip, pyUnicodeReplace]
    exact ⟨_, hok, rfl, premailerStep_no_fatal oc h.part.bodyData,
      fun p hp _ => Option.noConfusion hp, fun _ => ⟨rfl, rfl⟩⟩
  | some p =>
    by_cases hl : 0 < p.part.bodyData.length
    · have hok : get_context_data oc headers parts flags imgq =
          .ok ⟨(dictGet? headers "Subject").getD "(No subject)", f,
               p.part.bodyData, p.charset, false, ask, atts,
               (premailerStep oc h.part.bodyData).2⟩ := by
        rw [hg]
        simp only [hst]
        rw [hDec]
        simp [imageFilter, hStrip, hl, pyUnicodeReplace]
      refine ⟨_, hok, rfl, premailerStep_no_fatal oc h.part.bodyData, ?_, ?_⟩
      · rintro p' hp' _
        injection hp' with hp'
        subst hp'
        exact ⟨rfl, rfl⟩
      · rintro (hn | ⟨p', hp', hl0⟩)
        · exact Option.noConfusion hn
        · injection hp' with hp'
          subst hp'
          omega
    · have hl0 : p.part.bodyData.length = 0 := by omega
      have hok : get_context_data oc headers parts flags imgq =
          .ok ⟨(dictGet? headers "Subject").getD "(No subject)", f, "", "utf-8",
               false, ask, atts, (premailerStep oc h.part.bodyData).2⟩ := by
        rw [hg]
        simp only [hst]
        rw [hDec]
        simp [imageFilter, hStrip, hl0, pyUnicodeReplace]
      refine ⟨_, hok, rfl, premailerStep_no_fatal oc h.part.bodyData, ?_, ?_⟩
      · rintro p' hp' hlp
        injection hp' with hp'
        subst hp'
        omega
      · intro _
        exact ⟨rfl, rfl⟩

/-- C2 witness: the amended recovery at the counterexample's input. -/
theorem claim_C2_witness :
    ∃ r, get_context_data ocStripFail [("From", "a@b")] [htmlPartA, plainPartA]
        ⟨true, true, false⟩ none = .ok r ∧
      r.plain_message = false ∧
      List.count Warn.invalidHtml r.warnings = 0 ∧
      (∀ p, some plainClassA = some p → 0 < p.part.bodyData.length →
        r.body = p.part.bodyData ∧ r.charset = p.charset) ∧
      ((some plainClassA = none ∨
        ∃ p, some plainClassA = some p ∧ p.part.bodyData.length = 0) →
        r.body = "" ∧ r.charset = "utf-8") :=
  claim_C2 ocStripFail [("From", "a@b")] [htmlPartA, plainPartA]
    ⟨true, true, false⟩ none "a@b" "<p>H</p>" htmlClassA (some plainClassA)
    [htmlClassA, plainClassA] true rfl (by decide) (by decide) rfl rfl rfl

/-! Claim C1. -/

/-- If any present imgDisplay value parses as an integer, the image
decision never raises, whatever the mode and flags. -/
theorem imageDecision_ok (flags : UserFlags) (imgq : Option String) (pm : Bool)
    (hImg : imgq = none ∨ ∃ s v, imgq = some s ∧ pyInt s = some v) :
    ∃ d, imageDecision flags imgq pm = .ok d := by
  cases pm with
  | true => exact ⟨(true, false), by simp [imageDecision]⟩
  | false =>
    rcases hImg with hq | ⟨s, v, hq, hv⟩
    · subst hq
      cases hask : flags.ask_images with
      | true => exact ⟨(false, true), by simp [imageDecision, hask]⟩
      | false => exact ⟨(flags.display_images, false), by simp [imageDecision, hask]⟩
    · subst hq
      by_cases h1 : v = 1
      · subst h1
        exact ⟨(true, false), by simp [imageDecision, hv]⟩
      · cases hask : flags.ask_images with
        | true => exact ⟨(false, true), by simp [imageDecision, hv, h1, hask]⟩
        | false =>
          exact ⟨(flags.display_images, false), by simp [imageDecision, hv, h1, hask]⟩

/-- Totality of the render over a scanned part list: a From header plus a
parseable (or absent) imgDisplay parameter rule out every raise. -/
theorem get_context_data_total_aux (oc : Oracles)
    (headers : List (String × String)) (parts : List MimePart)
    (flags : UserFlags) (imgq : Option String) (f : String)
    (html plain : Option Classified) (atts : List Classified)
    (hFrom : dictGet? headers "From" = some f)
    (hScan : scanParts parts = (html, plain, atts))
    (hImg : imgq = none ∨ ∃ s v, imgq = some s ∧ pyInt s = some v) :
    ∃ r, get_context_data oc headers parts flags imgq = .ok r := by
  cases hfb : find_body (Option.map Classified.part html)
      (Option.map Classified.part plain) flags.prefer_html_email with
  | none =>
    rcases atts with _ | ⟨x, _ | ⟨y, t⟩⟩
    · exact ⟨_, get_context_data_plain_path oc headers parts flags imgq f html
        plain [] ⟨"", "utf-8", true⟩ hFrom hScan (by rw [hfb]; rfl) rfl⟩
    · exact ⟨_, get_context_data_plain_path oc headers parts flags imgq f html
        plain [x] ⟨x.part.bodyData, x.charset, true⟩ hFrom hScan (by rw [hfb]; rfl) rfl⟩
    · exact ⟨_, get_context_data_plain_path oc headers parts flags imgq f html
        plain (x :: y :: t) ⟨"", "utf-8", true⟩ hFrom hScan (by rw [hfb]; rfl) rfl⟩
  | some b =>
    cases b with
    | true =>
      have hp : ∃ p, plain = some p := by
        cases plain with
        | none => cases html <;> simp [find_body] at hfb
        | some p => exact ⟨p, rfl⟩
      obtain ⟨p, rfl⟩ := hp
      exact ⟨_, get_context_data_plain_path oc headers parts flags imgq f html
        (some p) atts ⟨p.part.bodyData, p.charset, true⟩ hFrom hScan
        (by rw [hfb]; rfl) rfl⟩
    | false =>
      have hh : ∃ hc, html = some hc := by
        cases html with
        | none => cases plain <;> simp [find_body] at hfb
        | some hc => exact ⟨hc, rfl⟩
      obtain ⟨hc, rfl⟩ := hh
      have hg := get_context_data_html_path oc headers parts flags imgq f hc
        plain atts hFrom hScan (by simpa using hfb)
      rw [hg]
      obtain ⟨d, hd⟩ := imageDecision_ok flags imgq
        (sanitize oc plain ⟨hc.part.bodyData, hc.charset, false⟩).plainMsg hImg
      simp only [hd]
      exact ⟨_, rfl⟩

/-- C1 counterexample: the render does not complete for every message and
request input.  A header set without a From entry aborts with KeyError,
and an HTML-mode render with a non-integer imgDisplay value aborts with
ValueError. -/
theorem claim_C1_counterexample :
    get_context_data ocId [("Subject", "s")] [] flagsDefault none =
      .error (.keyError "From") ∧
    get_context_data ocId [("From", "a@b")] [htmlOnly] flagsDefault
      (some "x") = .error .valueError := by
  exact ⟨rfl, rfl⟩

/-- C1 (amended): for every message and request input whose top-level
headers contain a From entry and whose imgDisplay parameter, when
present, parses as an integer, the render entry point completes without
an unhandled exception and returns a structure containing a body string,
possibly empty. -/
theorem claim_C1 (oc : Oracles) (headers : List (String × String))
    (parts : List MimePart) (flags : UserFlags) (imgq : Option String)
    (f : String)
    (hFrom : dictGet? headers "From" = some f)
    (hImg : imgq = none ∨ ∃ s v, imgq = some s ∧ pyInt s = some v) :
    ∃ r, get_context_data oc headers parts flags imgq = .ok r :=
  get_context_data_total_aux oc headers parts flags imgq f
    (scanParts parts).1 (scanParts parts).2.1 (scanParts parts).2.2
    hFrom rfl hImg

/-- C1 witness: a concrete render with a From header and no imgDisplay
parameter completes. -/
theorem claim_C1_witness :
    ∃ r, get_context_data ocId [("From", "x@y")] [] flagsDefault none =
      .ok r :=
  claim_C1 ocId [("From", "x@y")] [] flagsDefault none "x@y" rfl (Or.inl rfl)
